import Mathlib

/-!
Shallow embedding of the RAG customer-support prototype (Node.js) for
formal verification of its specification.

Conventions used throughout:
* JS strings are modelled as Lean `String` (or `List Char` where the code
  manipulates them character by character, as in the chunker).
* JS numbers that carry scores/confidences are modelled as `ℚ`.
* `Date` values / timestamps are modelled as `Nat` (milliseconds); all
  `new Date()` calls inside a single service-method invocation are modelled
  by one `now : Nat` parameter.
* The in-memory `Map` of chat sessions is modelled as an association list
  `List (String × Session)`; a JS `Map` has unique keys, which theorems
  assume via a `Nodup` hypothesis where needed.
* Remote collaborators (OpenAI, Pinecone) are modelled as injected inputs:
  their responses (or failures, via `Except`) are parameters of the
  embedded functions, matching the data flow of the awaited calls.
-/

set_option autoImplicit false
set_option maxRecDepth 8192

deriving instance DecidableEq for Except

namespace Rag

/-- Intent classification result, as produced by `classifyIntent`
(src/services/openaiService.js): a JSON object with fields `categoria` and
`confianza`.  `confianza` is `Option ℚ` because the parsed provider JSON may
omit the field. -/
structure Intent where
  categoria : String
  confianza : Option ℚ
deriving DecidableEq, Repr

/-- Metadata stored on a vector-index match, the part read by the chat and
document services (`result.metadata?.documentId` etc.). -/
structure DocMeta where
  documentId : Option String
  filename : Option String
  text : Option String
deriving DecidableEq, Repr

/-- Raw nearest-neighbour match returned by `vectorDB.queryVectors`
(src/config/database.js, `response.matches`). -/
structure VectorMatch where
  id : String
  score : ℚ
  metadata : DocMeta
deriving DecidableEq, Repr

/-- Formatted search result returned by `documentService.searchDocuments`. -/
structure SearchResult where
  id : String
  score : ℚ
  metadata : DocMeta
  text : String
deriving DecidableEq, Repr

/-- The model of JavaScript `Math.min(a, b)` on well-ordered rationals. -/
def jsMin (a b : ℚ) : ℚ := if a ≤ b then a else b

/-- The model of the JS expression `intent.confianza || 0.5` in
`calculateConfidence` (src/services/chatService.js line 265): a missing
field and the number `0` are both falsy, so both fall back to `0.5`. -/
def intentConfidenceVal (intent : Intent) : ℚ :=
  match intent.confianza with
  | none => 1/2
  | some c => if c = 0 then 1/2 else c

/-- Embedding of `ChatService.calculateConfidence`
(src/services/chatService.js lines 256-269). -/
def calculateConfidence (relevantDocs : List SearchResult) (intent : Intent) : ℚ :=
  if relevantDocs.length = 0 then
    1/10
  else
    let avgScore : ℚ := (relevantDocs.map SearchResult.score).sum / (relevantDocs.length : ℚ)
    jsMin (avgScore * (7/10) + intentConfidenceVal intent * (3/10)) 1

/-- Source citation attached to an assistant message
(src/services/chatService.js lines 104-108). -/
structure Source where
  documentId : Option String
  filename : Option String
  score : ℚ
deriving DecidableEq, Repr

/-- One message stored in a chat session.  User messages carry an intent,
assistant messages carry sources and a confidence. -/
structure ChatMessage where
  id : String
  role : String
  content : String
  timestamp : Nat
  intent : Option Intent
  sources : List Source
  confidence : Option ℚ
deriving DecidableEq, Repr

/-- One chat session as stored in `ChatService.chatSessions`. -/
structure Session where
  id : String
  userId : Option String
  createdAt : Nat
  lastActivity : Nat
  messages : List ChatMessage
  metadata : List (String × String)
  isActive : Bool
  endedAt : Option Nat
deriving DecidableEq, Repr

/-- The in-memory session store (`ChatService.chatSessions`, a JS `Map`). -/
abbrev Store : Type := List (String × Session)

/-- Configured history bound: `this.maxHistoryLength = 20`. -/
def maxHistoryLength : Nat := 20

/-- Configured session timeout in milliseconds: `1000 * 60 * 60`. -/
def sessionTimeout : Nat := 1000 * 60 * 60

/-- Model of `Map.delete`: remove every entry stored under `sid`. -/
def storeDelete (st : Store) (sid : String) : Store :=
  st.filter (fun e => !(e.1 == sid))

/-- Model of the in-place mutation of the session object aliased from the
map: the entry under `sid` now holds the updated session. -/
def storeSet (st : Store) (sid : String) (s : Session) : Store :=
  st.map (fun e => if e.1 == sid then (e.1, s) else e)

/-- Embedding of `ChatService.getSession` (src/services/chatService.js
lines 141-157): missing sessions give `none`; sessions idle longer than
the timeout are deleted from the store (lazy expiry) and give `none`. -/
def getSession (st : Store) (sid : String) (now : Nat) : Option Session × Store :=
  match List.lookup sid st with
  | none => (none, st)
  | some s =>
    if sessionTimeout < now - s.lastActivity then
      (none, storeDelete st sid)
    else
      (some s, st)

/-- Embedding of `ChatService.cleanExpiredSessions`
(src/services/chatService.js lines 215-230): delete every session whose
idle time exceeds the timeout. -/
def cleanExpiredSessions (st : Store) (now : Nat) : Store :=
  st.filter (fun e => !(decide (sessionTimeout < now - e.2.lastActivity)))

/-- Embedding of `ChatService.endChatSession` (src/services/chatService.js
lines 199-210).  Note the code only consults `getSession`; it never reads
`isActive`, so a session that was already ended is happily ended again. -/
def endChatSession (st : Store) (sid : String) (now : Nat) : Bool × Store :=
  match getSession st sid now with
  | (none, st1) => (false, st1)
  | (some s, st1) =>
      (true, storeSet st1 sid { s with isActive := false, endedAt := some now })

/-- Exported shape of a message (src/services/chatService.js lines 309-316);
note `confidence` is dropped by the export mapping. -/
structure ExportedMessage where
  id : String
  role : String
  content : String
  timestamp : Nat
  intent : Option Intent
  sources : List Source
deriving DecidableEq, Repr

/-- Exported shape of a session (src/services/chatService.js lines 302-317). -/
structure ExportedSession where
  sessionId : String
  userId : Option String
  createdAt : Nat
  endedAt : Option Nat
  isActive : Bool
  metadata : List (String × String)
  messages : List ExportedMessage
deriving DecidableEq, Repr

/-- The projection applied by `exportSessionData` to a stored session. -/
def exportedOf (sid : String) (s : Session) : ExportedSession :=
  { sessionId := sid
    userId := s.userId
    createdAt := s.createdAt
    endedAt := s.endedAt
    isActive := s.isActive
    metadata := s.metadata
    messages := s.messages.map (fun m =>
      { id := m.id, role := m.role, content := m.content,
        timestamp := m.timestamp, intent := m.intent, sources := m.sources }) }

/-- Embedding of `ChatService.exportSessionData` (src/services/chatService.js
lines 296-318).  It reads `this.chatSessions.get(sessionId)` directly and
performs no expiry check. -/
def exportSessionData (st : Store) (sid : String) : Option ExportedSession :=
  (List.lookup sid st).map (exportedOf sid)

/-- Source list attached to the assistant message
(src/services/chatService.js lines 104-108). -/
def sourcesOf (docs : List SearchResult) : List Source :=
  docs.map (fun d => { documentId := d.metadata.documentId,
                       filename := d.metadata.filename, score := d.score })

/-- The user message appended by `processMessage` (lines 91-97). -/
def mkUserMessage (uid message : String) (now : Nat) (intent : Intent) : ChatMessage :=
  { id := uid, role := "user", content := message, timestamp := now,
    intent := some intent, sources := [], confidence := none }

/-- The assistant message appended by `processMessage` (lines 99-110). -/
def mkAssistantMessage (aid response : String) (now : Nat)
    (docs : List SearchResult) (intent : Intent) : ChatMessage :=
  { id := aid, role := "assistant", content := response, timestamp := now,
    intent := none, sources := sourcesOf docs,
    confidence := some (calculateConfidence docs intent) }

/-- Response payload of `processMessage` (lines 121-128). -/
structure ProcessResponse where
  messageId : String
  response : String
  sources : List Source
  intent : Intent
  confidence : ℚ
  timestamp : Nat
deriving DecidableEq, Repr

/-- The history cap of `processMessage` (src/services/chatService.js lines
114-117): if more than `maxHistoryLength * 2` messages are stored, keep only
the newest `maxHistoryLength * 2` (`messages.slice(-this.maxHistoryLength * 2)`). -/
def trimHistory (msgs : List ChatMessage) : List ChatMessage :=
  if maxHistoryLength * 2 < msgs.length then
    msgs.drop (msgs.length - maxHistoryLength * 2)
  else msgs

/-- Embedding of `ChatService.processMessage` (src/services/chatService.js
lines 55-134).  The remote steps (intent classification, retrieval, RAG
generation) are awaited calls whose results are injected as the
`intent`, `relevantDocs` and `response` parameters; the generated message
ids are injected as `uid`/`aid`.  The store-level effects follow the code:
`getSession` (lazy expiry of the target), then `cleanExpiredSessions`,
then the in-place update of the target session (lastActivity bump, append
of the user and assistant messages, trim of the history to
`maxHistoryLength * 2` keeping the newest suffix, per `slice(-40)`). -/
def processMessage (st : Store) (sid message : String) (now : Nat)
    (intent : Intent) (relevantDocs : List SearchResult) (response : String)
    (uid aid : String) : Except String ProcessResponse × Store :=
  match getSession st sid now with
  | (none, st1) => (Except.error "Sesión de chat no encontrada", st1)
  | (some s, _) =>
    let st2 := cleanExpiredSessions st now
    let userMessage := mkUserMessage uid message now intent
    let assistantMessage := mkAssistantMessage aid response now relevantDocs intent
    let msgs := trimHistory (s.messages ++ [userMessage, assistantMessage])
    let s2 := { s with lastActivity := now, messages := msgs }
    (Except.ok { messageId := aid, response := response,
                 sources := assistantMessage.sources, intent := intent,
                 confidence := calculateConfidence relevantDocs intent,
                 timestamp := now },
     storeSet st2 sid s2)

/-- Whitespace predicate used to model JS `String.prototype.trim`. -/
def jsWs (c : Char) : Bool := c.isWhitespace

/-- Model of JS `str.trim()` on a character list: drop leading and trailing
whitespace. -/
def trimChars (l : List Char) : List Char :=
  ((l.dropWhile jsWs).reverse.dropWhile jsWs).reverse

/-- Sentence-terminal delimiters of the chunker regex `[.!?]+`
(src/services/documentService.js line 139). -/
def isSentenceDelim (c : Char) : Bool := c == '.' || c == '!' || c == '?'

/-- Split a character list at every character satisfying `p`, keeping empty
segments.  Composed with the nonempty-after-trim filter below this computes
the same sentence list as the JS `text.split(/[.!?]+/)` (the `+` in the
regex only collapses delimiter runs, and the filter drops the resulting
empty segments either way). -/
def splitOnPred (p : Char → Bool) : List Char → List (List Char)
  | [] => [[]]
  | c :: cs =>
    let r := splitOnPred p cs
    if p c then [] :: r
    else
      match r with
      | [] => [[c]]
      | h :: t => (c :: h) :: t

/-- Sentence units of the chunker (src/services/documentService.js
line 139): split on `[.!?]` and keep segments with nonempty trim. -/
def sentencesOf (text : List Char) : List (List Char) :=
  (splitOnPred isSentenceDelim text).filter (fun s => 0 < (trimChars s).length)

/-- Model of JS `str.split(' ')`: split exactly on the space character,
keeping empty segments. -/
def splitOnSpaceChar (l : List Char) : List (List Char) :=
  splitOnPred (fun c => c == ' ') l

/-- Model of JS `words.join(' ')`. -/
def joinSpace : List (List Char) → List Char
  | [] => []
  | [w] => w
  | w :: ws => w ++ [' '] ++ joinSpace ws

/-- Configured chunk size: `this.chunkSize = 1000`. -/
def chunkSize : Nat := 1000

/-- Configured chunk overlap: `this.chunkOverlap = 200`. -/
def chunkOverlap : Nat := 200

/-- The overlap seed taken when a chunk is closed
(src/services/documentService.js lines 152-153):
`currentChunk.split(' ').slice(-Math.floor(this.chunkOverlap / 6))`. -/
def overlapSeed (cur : List Char) : List (List Char) :=
  let ws := splitOnSpaceChar cur
  ws.drop (ws.length - chunkOverlap / 6)

/-- One iteration of the sentence loop of `createChunks`
(src/services/documentService.js lines 144-160).  The accumulator is
(chunks so far, current chunk).  The JS variable `currentLength` always
equals `currentChunk.length` (both branches re-sync it), so it is not
modelled separately. -/
def chunkStep (acc : List (List Char) × List Char) (sentence : List Char) :
    List (List Char) × List Char :=
  let st := trimChars sentence
  if chunkSize < acc.2.length + st.length ∧ 0 < acc.2.length then
    (acc.1 ++ [trimChars acc.2], joinSpace (overlapSeed acc.2) ++ [' '] ++ st)
  else
    (acc.1, (if acc.2.length = 0 then [] else acc.2 ++ [' ']) ++ st)

/-- The chunk list of `createChunks` before the final minimum-length filter
(src/services/documentService.js lines 138-165). -/
def createChunksRaw (text : List Char) : List (List Char) :=
  let r := (sentencesOf text).foldl chunkStep ([], [])
  if 0 < (trimChars r.2).length then r.1 ++ [trimChars r.2] else r.1

/-- Embedding of `DocumentProcessingService.createChunks`
(src/services/documentService.js lines 137-168), text modelled as a list of
characters. -/
def createChunks (text : List Char) : List (List Char) :=
  (createChunksRaw text).filter (fun c => decide (50 < c.length))

/-- Model of JS `content.trim()` on a `String`, reusing `trimChars`. -/
def jsTrimString (s : String) : String := String.mk (trimChars s.data)

/-- Embedding of `OpenAIService.classifyIntent`
(src/services/openaiService.js lines 150-182).  The completion call is
injected as `providerResult`: `Except.error` models a rejected provider
call (caught by the outer catch, fallback confidence 0), `Except.ok`
carries the list of choice contents.  `parse` injects `JSON.parse` as a
partial parser; a parse failure, like the TypeError raised when `choices`
is empty, is caught by the inner catch (fallback confidence 0.5). -/
def classifyIntent (parse : String → Option Intent)
    (providerResult : Except String (List String)) : Intent :=
  match providerResult with
  | Except.error _ => { categoria := "general", confianza := some 0 }
  | Except.ok choices =>
    match choices.head? with
    | none => { categoria := "general", confianza := some (1/2) }
    | some content =>
      match parse (jsTrimString content) with
      | none => { categoria := "general", confianza := some (1/2) }
      | some intent => intent

/-- Multer file object fields used by `processDocument`. -/
structure FileInfo where
  originalname : String
  path : String
  size : Nat
deriving DecidableEq, Repr

/-- Upload metadata fields used by `processDocument` and
`generateVectorData`. -/
structure UploadMeta where
  documentId : Option String := none
  title : Option String := none
  category : Option String := none
  tags : List String := []
deriving DecidableEq, Repr

/-- Metadata carried by each upserted vector
(src/services/documentService.js lines 185-196). -/
structure VectorMeta where
  documentId : String
  filename : String
  chunkIndex : Nat
  text : String
  title : String
  category : String
  tags : List String
  uploadedAt : String
  fileSize : Nat
  chunkLen : Nat
deriving DecidableEq, Repr

/-- One vector-index entry built by `generateVectorData`. -/
structure VectorEntry where
  id : String
  values : List ℚ
  metadata : VectorMeta
deriving DecidableEq, Repr

/-- Embedding of `DocumentProcessingService.generateVectorData`
(src/services/documentService.js lines 177-202).  `freshId` injects the
`uuidv4()` drawn at line 180 when the caller supplied no `documentId`;
`embeddings` injects the batch-embedding response.  The JS falsy defaults
`metadata.title || file.originalname` etc. are modelled with
`Option.getD`. -/
def generateVectorData (chunks : List String) (file : FileInfo)
    (meta : UploadMeta) (freshId : String) (embeddings : List (List ℚ))
    (nowIso : String) : List VectorEntry :=
  let documentId := meta.documentId.getD freshId
  chunks.enum.map (fun p =>
    { id := documentId ++ "_chunk_" ++ toString p.1
      values := embeddings.getD p.1 []
      metadata :=
        { documentId := documentId
          filename := file.originalname
          chunkIndex := p.1
          text := p.2
          title := meta.title.getD file.originalname
          category := meta.category.getD "general"
          tags := meta.tags
          uploadedAt := nowIso
          fileSize := file.size
          chunkLen := p.2.length } })

/-- Result object returned by `processDocument`
(src/services/documentService.js lines 51-58). -/
structure IngestResult where
  documentId : String
  filename : String
  fileSize : Nat
  chunksCreated : Nat
  status : String
  processedAt : String
deriving DecidableEq, Repr

/-- Observable outcome of one `processDocument` call: the value returned or
error thrown, whether the temp-file `fs.unlink` was reached, and the
vectors handed to a successful upsert. -/
structure IngestOutcome where
  result : Except String IngestResult
  unlinkAttempted : Bool
  upserted : List VectorEntry
deriving DecidableEq, Repr

/-- Embedding of `DocumentProcessingService.processDocument`
(src/services/documentService.js lines 24-67).  The awaited collaborators
are injected: `extractResult` is the outcome of `extractText`, `embedBatch`
of `openaiService.generateBatchEmbeddings`, `upsert` of
`vectorDB.upsertVectors`.  `chunkFreshId` injects the `uuidv4()` drawn
inside `generateVectorData` (line 180) and `resultFreshId` the independent
`uuidv4()` drawn for the result object (line 52).  Any thrown error
propagates (the catch block rethrows); the `fs.unlink` sits after the
upsert inside the `try`, so it is reached only on the all-success path
(its own failure is swallowed by the inner catch, hence only
`unlinkAttempted` is observable). -/
def processDocument (extractResult : Except String String)
    (embedBatch : List String → Except String (List (List ℚ)))
    (upsert : List VectorEntry → Except String Unit)
    (file : FileInfo) (meta : UploadMeta) (chunkFreshId resultFreshId : String)
    (nowIso : String) : IngestOutcome :=
  match extractResult with
  | Except.error e => { result := Except.error e, unlinkAttempted := false, upserted := [] }
  | Except.ok text =>
    if (trimChars text.data).length = 0 then
      { result := Except.error "No se pudo extraer texto del documento",
        unlinkAttempted := false, upserted := [] }
    else
      let chunks := (createChunks text.data).map String.mk
      match embedBatch chunks with
      | Except.error e => { result := Except.error e, unlinkAttempted := false, upserted := [] }
      | Except.ok embeddings =>
        let vectors := generateVectorData chunks file meta chunkFreshId embeddings nowIso
        match upsert vectors with
        | Except.error e => { result := Except.error e, unlinkAttempted := false, upserted := [] }
        | Except.ok _ =>
          { result := Except.ok
              { documentId := meta.documentId.getD resultFreshId
                filename := file.originalname
                fileSize := file.size
                chunksCreated := chunks.length
                status := "processed"
                processedAt := nowIso }
            unlinkAttempted := true
            upserted := vectors }

/-- Embedding of the filter-and-format tail of
`DocumentProcessingService.searchDocuments`
(src/services/documentService.js lines 228-238).  The query embedding and
the index call are remote collaborators; the ranked match list returned by
`vectorDB.queryVectors` is injected as `queryResults`.  The JS default
`result.metadata?.text || ''` is modelled with `Option.getD`. -/
def searchDocuments (queryResults : List VectorMatch) (minScore : ℚ) :
    List SearchResult :=
  (queryResults.filter (fun r => decide (minScore ≤ r.score))).map
    (fun r => { id := r.id, score := r.score, metadata := r.metadata,
                text := r.metadata.text.getD "" })

/-!
Concrete inputs used to evaluate the embedded operations at specific
points (counterexamples and witnesses).
-/

/-- A minimal stored message. -/
def msg0 : ChatMessage :=
  { id := "m", role := "user", content := "x", timestamp := 0,
    intent := none, sources := [], confidence := none }

/-- A session already holding the capped number of messages
(`maxHistoryLength * 2 = 40`), as produced by twenty completed exchanges. -/
def fullSession : Session :=
  { id := "s1", userId := none, createdAt := 0, lastActivity := 0,
    messages := List.replicate 40 msg0, metadata := [], isActive := true,
    endedAt := none }

/-- Store holding only `fullSession`. -/
def c1store : Store := [("s1", fullSession)]

/-- An intent with no parsed confidence field. -/
def c1intent : Intent := { categoria := "general", confianza := none }

/-- A fresh session with an empty history. -/
def w1session : Session :=
  { id := "w1", userId := none, createdAt := 0, lastActivity := 0,
    messages := [], metadata := [], isActive := true, endedAt := none }

/-- Store holding only `w1session`. -/
def c1wStore : Store := [("w1", w1session)]

/-- One retrieved document with similarity score `0.6` (the `minScore` used
by `processMessage`). -/
def c2docs : List SearchResult :=
  [{ id := "d1", score := 3/5,
     metadata := { documentId := none, filename := none, text := none },
     text := "" }]

/-- An intent whose classification confidence is exactly `0` (the fallback
produced by `classifyIntent` when the provider call fails). -/
def c2intent : Intent := { categoria := "general", confianza := some 0 }

/-- An intent whose parsed JSON carries no confidence field at all. -/
def c2noneIntent : Intent := { categoria := "general", confianza := none }

/-- A ranked two-match index response with equal scores. -/
def c3matches : List VectorMatch :=
  [{ id := "m1", score := 9/10,
     metadata := { documentId := some "d", filename := some "f", text := some "hola" } },
   { id := "m2", score := 9/10,
     metadata := { documentId := some "d", filename := some "f", text := none } }]

/-- Chunker input A: two 60-character sentences separated by a period. -/
def c4textA : List Char := List.replicate 60 'a' ++ ['.'] ++ List.replicate 60 'b'

/-- The single chunk produced from `c4textA`: the two trimmed sentences
joined by one space; the period is gone. -/
def c4chunkA : List Char := List.replicate 60 'a' ++ [' '] ++ List.replicate 60 'b'

/-- A nine-character word. -/
def c4word : List Char := List.replicate 9 'w'

/-- Chunker input B, first sentence: 33 nine-character words (329 chars). -/
def c4sentB1 : List Char := joinSpace (List.replicate 33 c4word)

/-- Chunker input B, second sentence: 700 characters, so that appending it
overflows `chunkSize` and closes the first chunk. -/
def c4sentB2 : List Char := List.replicate 700 'x'

/-- Chunker input B: the 329-character sentence, a period, then the
700-character sentence. -/
def c4textB : List Char := c4sentB1 ++ ['.'] ++ c4sentB2

/-- Uploaded file used for the single-chunk ingest scenario. -/
def c5file : FileInfo :=
  { originalname := "doc.txt", path := "uploads/doc.txt", size := 60 }

/-- Extracted text: one 60-character sentence, yielding exactly one chunk. -/
def c5text : String := String.mk (List.replicate 60 'a')

/-- Outcome of ingesting `c5text` with no caller-supplied `documentId`; the
two independent `uuidv4()` draws are injected as `"uuid-1"` (inside
`generateVectorData`) and `"uuid-2"` (for the result object). -/
def c5outcome : IngestOutcome :=
  processDocument (Except.ok c5text)
    (fun chunks => Except.ok (chunks.map (fun _ => [1])))
    (fun _ => Except.ok ()) c5file {} "uuid-1" "uuid-2" "2026-01-01T00:00:00Z"

/-- A session idle since time 0. -/
def expiredSession : Session :=
  { id := "x1", userId := none, createdAt := 0, lastActivity := 0,
    messages := [], metadata := [], isActive := true, endedAt := none }

/-- Store holding only `expiredSession`. -/
def c6store : Store := [("x1", expiredSession)]

/-- A parser that rejects every provider payload. -/
def c7parse : String → Option Intent := fun _ => none

/-- A session already ended (`isActive = false`, `endedAt` recorded) but
still within the idle timeout. -/
def endedSession : Session :=
  { id := "e1", userId := none, createdAt := 0, lastActivity := 0,
    messages := [], metadata := [], isActive := false, endedAt := some 5 }

/-- Store holding only `endedSession`. -/
def c8store : Store := [("e1", endedSession)]

/-- A live session that has never been ended. -/
def c8active : Session :=
  { id := "a1", userId := none, createdAt := 0, lastActivity := 0,
    messages := [], metadata := [], isActive := true, endedAt := none }

/-- Store holding only `c8active`. -/
def c8activeStore : Store := [("a1", c8active)]

/-- Uploaded file used for the failing-extraction scenario. -/
def c9file : FileInfo :=
  { originalname := "bad.txt", path := "uploads/bad.txt", size := 10 }

/-- Outcome of an ingest whose text extraction fails (for example an
unreadable plain-text file, which `extractFromText` reports as
`Error procesando archivo de texto`). -/
def c9outcome : IngestOutcome :=
  processDocument (Except.error "Error procesando archivo de texto")
    (fun _ => Except.ok []) (fun _ => Except.ok ()) c9file {} "u1" "u2" "t0"

/-- The session targeted by the framing scenario (recently active). -/
def c10target : Session :=
  { id := "tgt", userId := none, createdAt := 0, lastActivity := 100,
    messages := [], metadata := [], isActive := true, endedAt := none }

/-- A bystander session, recently active, belonging to another visitor. -/
def c10alive : Session :=
  { id := "live", userId := some "other", createdAt := 0, lastActivity := 100,
    messages := [], metadata := [], isActive := true, endedAt := none }

/-- A bystander session idle since time 0. -/
def c10expired : Session :=
  { id := "old", userId := some "other", createdAt := 0, lastActivity := 0,
    messages := [], metadata := [], isActive := true, endedAt := none }

/-- Three-session store: the target and two bystanders. -/
def c10store : Store :=
  [("live", c10alive), ("old", c10expired), ("tgt", c10target)]

/-- The processing time for the framing scenario: the idle bystander is
then `sessionTimeout + 50` old, the others `sessionTimeout - 50`. -/
def c10now : Nat := sessionTimeout + 50

/-- Intent injected in the framing scenario. -/
def c10intent : Intent := { categoria := "general", confianza := some (9/10) }

/-!
Helper lemmas about the association-list model of the session map.
-/

theorem lookup_cons (k : String) (e : String × Session) (t : Store) :
    List.lookup k (e :: t) = if e.1 = k then some e.2 else List.lookup k t := by
  rcases e with ⟨a, b⟩
  by_cases h : a = k
  · simp [List.lookup, h]
  · have hb : (k == a) = false := by
      simp [beq_iff_eq]
      exact fun hk => h hk.symm
    simp [List.lookup, hb, h]

theorem lookup_storeDelete_self (st : Store) (sid : String) :
    List.lookup sid (storeDelete st sid) = none := by
  induction st with
  | nil => rfl
  | cons e t ih =>
    by_cases h : e.1 = sid
    · simpa [storeDelete, List.filter_cons, h] using ih
    · simpa [storeDelete, List.filter_cons, h, lookup_cons] using ih

theorem lookup_storeSet_self (st : Store) (sid : String) (s s2 : Session)
    (h : List.lookup sid st = some s) :
    List.lookup sid (storeSet st sid s2) = some s2 := by
  induction st with
  | nil => simp [List.lookup] at h
  | cons e t ih =>
    by_cases he : e.1 = sid
    · simp [storeSet, List.map_cons, he, lookup_cons]
    · rw [lookup_cons, if_neg he] at h
      simpa [storeSet, List.map_cons, he, lookup_cons] using ih h



theorem lookup_none_of_not_mem (st : Store) (k : String)
    (h : k ∉ st.map Prod.fst) : List.lookup k st = none := by
  induction st with
  | nil => rfl
  | cons e t ih =>
    simp only [List.map_cons, List.mem_cons, not_or] at h
    rw [lookup_cons, if_neg (fun he => h.1 he.symm)]
    exact ih h.2


theorem lookup_storeSet_ne (st : Store) (sid k : String) (s2 : Session)
    (h : k ≠ sid) :
    List.lookup k (storeSet st sid s2) = List.lookup k st := by
  induction st with
  | nil => rfl
  | cons e t ih =>
    rw [storeSet, List.map_cons]
    rw [show storeSet t sid s2 = List.map (fun e => if e.1 == sid then (e.1, s2) else e) t from rfl] at ih
    by_cases he : e.1 = sid
    · have hb : (e.1 == sid) = true := by simp [he]
      rw [if_pos hb, lookup_cons, lookup_cons]
      have hek : ¬ e.1 = k := fun hk => h (hk ▸ he ▸ rfl)
      rw [if_neg hek, if_neg hek]
      exact ih
    · have hb : ¬ (e.1 == sid) = true := by simp [he]
      rw [if_neg hb, lookup_cons, lookup_cons]
      by_cases hek : e.1 = k
      · rw [if_pos hek, if_pos hek]
      · rw [if_neg hek, if_neg hek]
        exact ih

theorem filter_keep_of_alive (e : String × Session) (now : Nat)
    (hkeep : ¬ sessionTimeout < now - e.2.lastActivity) :
    (!(decide (sessionTimeout < now - e.2.lastActivity))) = true := by
  simp [hkeep]

theorem lookup_clean_alive (st : Store) (k : String) (t : Session) (now : Nat)
    (h : List.lookup k st = some t)
    (ha : now - t.lastActivity ≤ sessionTimeout) :
    List.lookup k (cleanExpiredSessions st now) = some t := by
  induction st with
  | nil => simp [List.lookup] at h
  | cons e es ih =>
    rw [cleanExpiredSessions, List.filter_cons]
    rw [show cleanExpiredSessions es now
          = es.filter (fun e => !(decide (sessionTimeout < now - e.2.lastActivity))) from rfl] at ih
    by_cases he : e.1 = k
    · rw [lookup_cons, if_pos he] at h
      have het : e.2 = t := by injection h
      have hkeep : ¬ sessionTimeout < now - e.2.lastActivity := by
        rw [het]; exact not_lt.mpr ha
      rw [if_pos (filter_keep_of_alive e now hkeep), lookup_cons, if_pos he, het]
    · rw [lookup_cons, if_neg he] at h
      by_cases hkeep : sessionTimeout < now - e.2.lastActivity
      · have hb : ¬ (!(decide (sessionTimeout < now - e.2.lastActivity))) = true := by simp [hkeep]
        rw [if_neg hb]
        exact ih h
      · rw [if_pos (filter_keep_of_alive e now hkeep), lookup_cons, if_neg he]
        exact ih h

theorem lookup_clean_expired (st : Store) (k : String) (t : Session) (now : Nat)
    (hnd : (st.map Prod.fst).Nodup)
    (h : List.lookup k st = some t)
    (he : sessionTimeout < now - t.lastActivity) :
    List.lookup k (cleanExpiredSessions st now) = none := by
  induction st with
  | nil => rfl
  | cons e es ih =>
    simp only [List.map_cons, List.nodup_cons] at hnd
    rw [cleanExpiredSessions, List.filter_cons]
    rw [show cleanExpiredSessions es now
          = es.filter (fun e => !(decide (sessionTimeout < now - e.2.lastActivity))) from rfl] at ih
    by_cases hek : e.1 = k
    · rw [lookup_cons, if_pos hek] at h
      have het : e.2 = t := by injection h
      have hdrop : ¬ (!(decide (sessionTimeout < now - e.2.lastActivity))) = true := by
        simp [het, he]
      rw [if_neg hdrop]
      apply lookup_none_of_not_mem
      intro hk
      apply hnd.1
      rw [hek]
      exact (((List.filter_sublist es).map Prod.fst).subset) hk
    · rw [lookup_cons, if_neg hek] at h
      by_cases hkeep : sessionTimeout < now - e.2.lastActivity
      · have hb : ¬ (!(decide (sessionTimeout < now - e.2.lastActivity))) = true := by simp [hkeep]
        rw [if_neg hb]
        exact ih hnd.2 h
      · rw [if_pos (filter_keep_of_alive e now hkeep), lookup_cons, if_neg hek]
        exact ih hnd.2 h

theorem getSession_alive (st : Store) (sid : String) (now : Nat) (s : Session)
    (h : List.lookup sid st = some s)
    (ha : now - s.lastActivity ≤ sessionTimeout) :
    getSession st sid now = (some s, st) := by
  rw [getSession, h]
  simp [not_lt.mpr ha]

theorem getSession_expired (st : Store) (sid : String) (now : Nat) (s : Session)
    (h : List.lookup sid st = some s)
    (he : sessionTimeout < now - s.lastActivity) :
    getSession st sid now = (none, storeDelete st sid) := by
  rw [getSession, h]
  simp [he]

/-!
Theorems settling the claims, with their witnesses and counterexamples.
-/

/-- Length of the trimmed history: the cap keeps `min` of the old length and
40 messages. -/
theorem trimHistory_length (msgs : List ChatMessage) :
    (trimHistory msgs).length = min msgs.length (maxHistoryLength * 2) := by
  unfold trimHistory
  split
  · rename_i h
    rw [List.length_drop]
    omega
  · rename_i h
    omega

/-- The cap keeps a suffix of the history, so the oldest messages are the
ones dropped. -/
theorem trimHistory_suffix (msgs : List ChatMessage) :
    ∃ k, trimHistory msgs = msgs.drop k := by
  unfold trimHistory
  split
  · exact ⟨_, rfl⟩
  · exact ⟨0, (List.drop_zero msgs).symm⟩

/-- C1 (amended): for a stored non-expired session, a successful
`processMessage` stores back the old history with the user message then the
assistant message appended and then trimmed to the 40-message cap
(`maxHistoryLength * 2`), so the new count is `min (old + 2) 40` — exactly
`old + 2` only below the cap; `lastActivity` is set to `now`, which is at
least its previous value whenever the clock is monotonic; the stored length
never exceeds the cap, and trimming drops a prefix (oldest first). -/
theorem processMessage_updates_history (st : Store) (sid message : String)
    (now : Nat) (intent : Intent) (docs : List SearchResult)
    (response uid aid : String) (s : Session)
    (h : List.lookup sid st = some s)
    (ha : now - s.lastActivity ≤ sessionTimeout)
    (hm : s.lastActivity ≤ now) :
    ∃ s2, List.lookup sid (processMessage st sid message now intent docs response uid aid).2 = some s2
      ∧ s2.messages = trimHistory (s.messages ++
          [mkUserMessage uid message now intent,
           mkAssistantMessage aid response now docs intent])
      ∧ s2.messages.length = min (s.messages.length + 2) (maxHistoryLength * 2)
      ∧ s2.messages.length ≤ maxHistoryLength * 2
      ∧ s2.lastActivity = now
      ∧ s.lastActivity ≤ s2.lastActivity
      ∧ (∃ k, s2.messages = (s.messages ++
          [mkUserMessage uid message now intent,
           mkAssistantMessage aid response now docs intent]).drop k) := by
  have hget := getSession_alive st sid now s h ha
  refine ⟨{ s with lastActivity := now, messages := trimHistory (s.messages ++ [mkUserMessage uid message now intent, mkAssistantMessage aid response now docs intent]) }, ?_, rfl, ?_, ?_, rfl, ?_, ?_⟩
  · simp only [processMessage, hget]
    exact lookup_storeSet_self (cleanExpiredSessions st now) sid s _
      (lookup_clean_alive st sid s now h ha)
  · rw [trimHistory_length]
    simp [List.length_append]
  · rw [trimHistory_length]
    simp
  · exact hm
  · exact trimHistory_suffix _

/-- C10: during a successful `processMessage` on an existing non-expired
session, every other stored session still within the timeout is left exactly
as it was, and every other stored session idle beyond the timeout is deleted,
because `cleanExpiredSessions` runs inside message processing. -/
theorem processMessage_frame (st : Store) (sid message : String) (now : Nat)
    (intent : Intent) (docs : List SearchResult) (response uid aid : String)
    (s : Session)
    (hnd : (st.map Prod.fst).Nodup)
    (h : List.lookup sid st = some s)
    (ha : now - s.lastActivity ≤ sessionTimeout)
    (k : String) (hk : k ≠ sid) (t : Session)
    (ht : List.lookup k st = some t) :
    (now - t.lastActivity ≤ sessionTimeout →
       List.lookup k (processMessage st sid message now intent docs response uid aid).2 = some t)
  ∧ (sessionTimeout < now - t.lastActivity →
       List.lookup k (processMessage st sid message now intent docs response uid aid).2 = none) := by
  have hget := getSession_alive st sid now s h ha
  constructor
  · intro halive
    simp only [processMessage, hget]
    rw [lookup_storeSet_ne _ _ _ _ hk]
    exact lookup_clean_alive st k t now ht halive
  · intro hexp
    simp only [processMessage, hget]
    rw [lookup_storeSet_ne _ _ _ _ hk]
    exact lookup_clean_expired st k t now hnd ht hexp

/-- C6 (amended): a stored session idle beyond the timeout is invisible to
`getSession` (which also deletes it as a side effect) and is removed by
`cleanExpiredSessions`; but `exportSessionData` performs no expiry check, so
before any reaping read it still returns the full transcript rather than
not-found. -/
theorem expired_session_reads (st : Store) (sid : String) (now : Nat)
    (s : Session)
    (hnd : (st.map Prod.fst).Nodup)
    (h : List.lookup sid st = some s)
    (he : sessionTimeout < now - s.lastActivity) :
    (getSession st sid now).1 = none
  ∧ List.lookup sid (getSession st sid now).2 = none
  ∧ List.lookup sid (cleanExpiredSessions st now) = none
  ∧ exportSessionData st sid = some (exportedOf sid s) := by
  have hget := getSession_expired st sid now s h he
  refine ⟨by rw [hget], ?_, lookup_clean_expired st sid s now hnd h he, ?_⟩
  · rw [hget]
    exact lookup_storeDelete_self st sid
  · rw [exportSessionData, h]
    rfl

/-- C8 (amended): `endChatSession` returns `true` exactly when the session
is stored and not expired — regardless of `isActive` — marking it inactive
and recording the end time; it returns `false` only for missing or expired
(lazily reaped) sessions.  A repeated call on a still-unexpired session
therefore returns `true` again, not `false`. -/
theorem endChatSession_spec (st : Store) (sid : String) (now : Nat) :
    ((endChatSession st sid now).1 = true ↔
       ∃ s, List.lookup sid st = some s ∧ now - s.lastActivity ≤ sessionTimeout)
  ∧ (∀ s, List.lookup sid st = some s → now - s.lastActivity ≤ sessionTimeout →
       List.lookup sid (endChatSession st sid now).2
         = some { s with isActive := false, endedAt := some now })
  ∧ (List.lookup sid st = none → endChatSession st sid now = (false, st)) := by
  refine ⟨⟨?_, ?_⟩, ?_, ?_⟩
  · intro hb
    cases hl : List.lookup sid st with
    | none =>
      rw [endChatSession, getSession, hl] at hb
      simp at hb
    | some s =>
      by_cases hexp : sessionTimeout < now - s.lastActivity
      · rw [endChatSession, getSession_expired st sid now s hl hexp] at hb
        simp at hb
      · exact ⟨s, rfl, not_lt.mp hexp⟩
  · rintro ⟨s, hl, ha⟩
    simp only [endChatSession, getSession_alive st sid now s hl ha]
  · intro s hl ha
    simp only [endChatSession, getSession_alive st sid now s hl ha]
    exact lookup_storeSet_self st sid s _ hl
  · intro hl
    simp only [endChatSession, getSession, hl]


/-- C1 counterexample: a session already holding the 40-message cap is
reachable via `get` (it is stored and not expired), yet a successful
`processMessage` leaves its stored message count at 40, not 40 + 2, so the
stored count does not increase by exactly 2. -/
theorem processMessage_at_cap_counterexample :
    (List.lookup "s1" (processMessage c1store "s1" "hola" 5 c1intent [] "resp" "u1" "a1").2).map
        (fun s => s.messages.length) = some 40
  ∧ fullSession.messages.length = 40
  ∧ ¬ ((List.lookup "s1" (processMessage c1store "s1" "hola" 5 c1intent [] "resp" "u1" "a1").2).map
        (fun s => s.messages.length) = some (fullSession.messages.length + 2)) :=
  ⟨by decide, by decide, by decide⟩

/-- C1 witness: the amended theorem applied to a concrete one-session
store with an empty history. -/
theorem processMessage_updates_history_witness :
    ∃ s2, List.lookup "w1" (processMessage c1wStore "w1" "hola" 1 c1intent [] "ok" "u" "a").2 = some s2
      ∧ s2.messages = trimHistory (w1session.messages ++
          [mkUserMessage "u" "hola" 1 c1intent, mkAssistantMessage "a" "ok" 1 [] c1intent])
      ∧ s2.messages.length = min (w1session.messages.length + 2) (maxHistoryLength * 2)
      ∧ s2.messages.length ≤ maxHistoryLength * 2
      ∧ s2.lastActivity = 1
      ∧ w1session.lastActivity ≤ s2.lastActivity
      ∧ (∃ k, s2.messages = (w1session.messages ++
          [mkUserMessage "u" "hola" 1 c1intent, mkAssistantMessage "a" "ok" 1 [] c1intent]).drop k) :=
  processMessage_updates_history c1wStore "w1" "hola" 1 c1intent [] "ok" "u" "a" w1session
    (by decide) (by decide) (by decide)

/-- C10 witness: in a concrete three-session store, processing a message
on the target leaves the fresh bystander untouched and deletes the idle
one. -/
theorem processMessage_frame_witness :
    List.lookup "live" (processMessage c10store "tgt" "hola" c10now c10intent [] "ok" "u" "a").2 = some c10alive
  ∧ List.lookup "old" (processMessage c10store "tgt" "hola" c10now c10intent [] "ok" "u" "a").2 = none :=
  ⟨(processMessage_frame c10store "tgt" "hola" c10now c10intent [] "ok" "u" "a" c10target
      (by decide) (by decide) (by decide) "live" (by decide) c10alive (by decide)).1 (by decide),
   (processMessage_frame c10store "tgt" "hola" c10now c10intent [] "ok" "u" "a" c10target
      (by decide) (by decide) (by decide) "old" (by decide) c10expired (by decide)).2 (by decide)⟩

/-- C6 witness: the amended theorem applied to a concrete store holding
one session idle for `sessionTimeout + 1` milliseconds. -/
theorem expired_session_reads_witness :
    (getSession c6store "x1" (sessionTimeout + 1)).1 = none
  ∧ List.lookup "x1" (getSession c6store "x1" (sessionTimeout + 1)).2 = none
  ∧ List.lookup "x1" (cleanExpiredSessions c6store (sessionTimeout + 1)) = none
  ∧ exportSessionData c6store "x1" = some (exportedOf "x1" expiredSession) :=
  expired_session_reads c6store "x1" (sessionTimeout + 1) expiredSession
    (by decide) (by decide) (by decide)

/-- C6 counterexample: for a stored session whose idle time exceeds the
timeout, `exportSessionData` does not return not-found — it returns the
session data, contradicting the claim that every read operation treats an
expired session as unreachable. -/
theorem exportSessionData_expired_counterexample :
    sessionTimeout < (sessionTimeout + 1) - expiredSession.lastActivity
  ∧ exportSessionData c6store "x1" ≠ none :=
  ⟨by decide, by decide⟩

/-- C8 counterexample: calling `endChatSession` on an already-ended (but
unexpired) session returns `true`, and so does a second repeated call —
the claim says both should return `false`. -/
theorem endChatSession_ended_counterexample :
    endedSession.isActive = false
  ∧ (endChatSession c8store "e1" 10).1 = true
  ∧ (endChatSession (endChatSession c8store "e1" 10).2 "e1" 11).1 = true :=
  ⟨rfl, by decide, by decide⟩

/-- C8 witness: ending a concrete active, non-expired session stores it
back inactive with the end time recorded. -/
theorem endChatSession_spec_witness :
    List.lookup "a1" (endChatSession c8activeStore "a1" 10).2
      = some { c8active with isActive := false, endedAt := some (10:Nat) } :=
  (endChatSession_spec c8activeStore "a1" 10).2.1 c8active (by decide) (by decide)

/-- Sum of a list of rationals bounded by 1 is at most its length. -/
theorem list_sum_le_length (l : List ℚ) (h : ∀ x ∈ l, x ≤ 1) :
    l.sum ≤ (l.length : ℚ) := by
  induction l with
  | nil => simp
  | cons x xs ih =>
    simp only [List.sum_cons, List.length_cons]
    push_cast
    have hx := h x (List.mem_cons_self x xs)
    have hxs := ih (fun y hy => h y (List.mem_cons_of_mem x hy))
    linarith

/-- C2 (amended): with zero retrieved chunks the confidence is the floor
`0.1` regardless of intent confidence; with chunks and a nonzero intent
confidence `c` it is `min (0.7 * meanScore + 0.3 * c) 1`; when the intent
confidence is absent or equal to `0` (JS falsy), `0.5` is substituted
before the `0.3` weighting; under score and confidence bounds in `[0, 1]`
the result always lies in `[0, 1]`. -/
theorem calculateConfidence_spec (docs : List SearchResult) (intent : Intent)
    (hs : ∀ d ∈ docs, 0 ≤ d.score ∧ d.score ≤ 1)
    (hc : ∀ c, intent.confianza = some c → 0 ≤ c ∧ c ≤ 1) :
    (0 ≤ calculateConfidence docs intent ∧ calculateConfidence docs intent ≤ 1)
  ∧ (docs = [] → calculateConfidence docs intent = 1/10)
  ∧ (docs ≠ [] → (intent.confianza = none ∨ intent.confianza = some 0) →
      calculateConfidence docs intent
        = jsMin (((docs.map SearchResult.score).sum / (docs.length : ℚ)) * (7/10)
            + (1/2) * (3/10)) 1)
  ∧ (∀ c, intent.confianza = some c → c ≠ 0 → docs ≠ [] →
      calculateConfidence docs intent
        = jsMin (((docs.map SearchResult.score).sum / (docs.length : ℚ)) * (7/10)
            + c * (3/10)) 1) := by
  have hic : 0 ≤ intentConfidenceVal intent ∧ intentConfidenceVal intent ≤ 1 := by
    unfold intentConfidenceVal
    cases hci : intent.confianza with
    | none => norm_num
    | some c =>
      rcases hc c hci with ⟨h0, h1⟩
      by_cases hz : c = 0
      · simp only [hz, if_pos rfl]
        norm_num
      · simp only [if_neg hz]
        exact ⟨h0, h1⟩
  refine ⟨?_, ?_, ?_, ?_⟩
  · unfold calculateConfidence
    by_cases hnil : docs.length = 0
    · simp only [hnil, if_pos rfl]
      norm_num
    · simp only [hnil, if_false]
      have hlen : (0:ℚ) < (docs.length : ℚ) := by
        have : 0 < docs.length := Nat.pos_of_ne_zero hnil
        exact_mod_cast this
      have hsum0 : 0 ≤ (docs.map SearchResult.score).sum := by
        apply List.sum_nonneg
        intro x hx
        rcases List.mem_map.mp hx with ⟨d, hd, rfl⟩
        exact (hs d hd).1
      have hsum1 : (docs.map SearchResult.score).sum ≤ ((docs.map SearchResult.score).length : ℚ) := by
        apply list_sum_le_length
        intro x hx
        rcases List.mem_map.mp hx with ⟨d, hd, rfl⟩
        exact (hs d hd).2
      have ha0 : 0 ≤ (docs.map SearchResult.score).sum / (docs.length : ℚ) :=
        div_nonneg hsum0 (le_of_lt hlen)
      have ha1 : (docs.map SearchResult.score).sum / (docs.length : ℚ) ≤ 1 := by
        rw [div_le_one hlen]
        simpa using hsum1
      unfold jsMin
      split
      · rename_i hle
        refine ⟨?_, hle⟩
        have h1 : 0 ≤ (docs.map SearchResult.score).sum / (docs.length : ℚ) * (7/10) :=
          mul_nonneg ha0 (by norm_num)
        have h2 : 0 ≤ intentConfidenceVal intent * (3/10) :=
          mul_nonneg hic.1 (by norm_num)
        linarith
      · norm_num
  · intro hd
    simp [calculateConfidence, hd]
  · intro hdnil hfalsy
    have hlen : ¬ docs.length = 0 := by
      intro h0
      exact hdnil (List.length_eq_zero.mp h0)
    simp only [calculateConfidence, hlen, if_false]
    unfold intentConfidenceVal
    rcases hfalsy with h | h
    · rw [h]
    · rw [h]
      norm_num
  · intro c hci hcz hdnil
    have hlen : ¬ docs.length = 0 := by
      intro h0
      exact hdnil (List.length_eq_zero.mp h0)
    simp only [calculateConfidence, hlen, if_false]
    unfold intentConfidenceVal
    rw [hci]
    simp only [if_neg hcz]

/-- C2 counterexample: with one chunk of score `0.6` and an intent
confidence of exactly `0` (the provider-failure fallback), the code yields
`0.57` — `0.7 * 0.6 + 0.3 * 0.5` — not the claimed
`0.7 * 0.6 + 0.3 * 0 = 0.42`, because `intent.confianza || 0.5` treats `0`
as falsy. -/
theorem calculateConfidence_counterexample :
    calculateConfidence c2docs c2intent = 57/100
  ∧ jsMin (((c2docs.map SearchResult.score).sum / (c2docs.length : ℚ)) * (7/10)
        + 0 * (3/10)) 1 = 42/100
  ∧ calculateConfidence c2docs c2intent
      ≠ jsMin (((c2docs.map SearchResult.score).sum / (c2docs.length : ℚ)) * (7/10)
          + 0 * (3/10)) 1 := by
  refine ⟨?_, ?_, ?_⟩ <;>
    norm_num [calculateConfidence, c2docs, c2intent, intentConfidenceVal, jsMin]

/-- C2 witness: the amended theorem applied to one retrieved 0.6-score
chunk and an intent with no confidence field, exercising the general
falsy-to-0.5 substitution case. -/
theorem calculateConfidence_spec_witness :
    (0 ≤ calculateConfidence c2docs c2noneIntent ∧ calculateConfidence c2docs c2noneIntent ≤ 1)
  ∧ (c2docs = [] → calculateConfidence c2docs c2noneIntent = 1/10)
  ∧ (c2docs ≠ [] → (c2noneIntent.confianza = none ∨ c2noneIntent.confianza = some 0) →
      calculateConfidence c2docs c2noneIntent
        = jsMin (((c2docs.map SearchResult.score).sum / (c2docs.length : ℚ)) * (7/10)
            + (1/2) * (3/10)) 1)
  ∧ (∀ c, c2noneIntent.confianza = some c → c ≠ 0 → c2docs ≠ [] →
      calculateConfidence c2docs c2noneIntent
        = jsMin (((c2docs.map SearchResult.score).sum / (c2docs.length : ℚ)) * (7/10)
            + c * (3/10)) 1) :=
  calculateConfidence_spec c2docs c2noneIntent (by norm_num [c2docs]) (by simp [c2noneIntent])


/-- C3: every entry returned by `searchDocuments` has score at least
`minScore`; since the function only filters and reformats the index
response without re-sorting, a response ranked by non-increasing score
yields a result ranked by non-increasing score; and when nothing clears
the threshold the result is the empty list, a normal non-error value. -/
theorem searchDocuments_spec (queryResults : List VectorMatch) (minScore : ℚ)
    (hsorted : (queryResults.map VectorMatch.score).Pairwise (fun a b => b ≤ a)) :
    (∀ r ∈ searchDocuments queryResults minScore, minScore ≤ r.score)
  ∧ ((searchDocuments queryResults minScore).map SearchResult.score).Pairwise (fun a b => b ≤ a)
  ∧ ((∀ r ∈ queryResults, r.score < minScore) → searchDocuments queryResults minScore = []) := by
  refine ⟨?_, ?_, ?_⟩
  · intro r hr
    unfold searchDocuments at hr
    rcases List.mem_map.mp hr with ⟨m, hm, rfl⟩
    have hp := List.of_mem_filter hm
    simp only [decide_eq_true_eq] at hp
    exact hp
  · unfold searchDocuments
    rw [List.pairwise_map, List.pairwise_map]
    have h2 : queryResults.Pairwise (fun a b => b.score ≤ a.score) :=
      List.pairwise_map.mp hsorted
    exact h2.filter _
  · intro hall
    unfold searchDocuments
    have hnil : queryResults.filter (fun r => decide (minScore ≤ r.score)) = [] := by
      rw [List.filter_eq_nil_iff]
      intro a ha
      simp only [decide_eq_true_eq, not_le]
      exact hall a ha
    rw [hnil]
    rfl

/-- C3 witness: the theorem applied to a concrete ranked index
response. -/
theorem searchDocuments_spec_witness :
    (∀ r ∈ searchDocuments c3matches (3/5), (3/5 : ℚ) ≤ r.score)
  ∧ ((searchDocuments c3matches (3/5)).map SearchResult.score).Pairwise (fun a b => b ≤ a)
  ∧ ((∀ r ∈ c3matches, r.score < 3/5) → searchDocuments c3matches (3/5) = []) :=
  searchDocuments_spec c3matches (3/5) (by simp [c3matches, List.pairwise_cons])

/-- C4 (amended): every chunk returned by `createChunks` is strictly
longer than the 50-character floor, and the overlap seed injected at each
chunk boundary consists of at most `⌊200 / 6⌋ = 33` trailing words of the
just-closed chunk — a word-count bound, not a character bound. -/
theorem createChunks_floor (text : List Char) :
    (∀ c ∈ createChunks text, 50 < c.length)
  ∧ (∀ cur : List Char, (overlapSeed cur).length ≤ chunkOverlap / 6) := by
  constructor
  · intro c hc
    unfold createChunks at hc
    have hp := List.of_mem_filter hc
    simp only [decide_eq_true_eq] at hp
    exact hp
  · intro cur
    unfold overlapSeed
    rw [List.length_drop]
    omega

/-- C4 witness: the amended theorem applied to a concrete text and its
computed chunk. -/
theorem createChunks_floor_witness :
    50 < c4chunkA.length ∧ (overlapSeed ['a']).length ≤ chunkOverlap / 6 :=
  ⟨(createChunks_floor c4textA).1 c4chunkA (by decide),
   (createChunks_floor c4textA).2 ['a']⟩

/-- C4 counterexample.  Input A (two 60-character sentences joined by a
period) produces a single chunk — with nothing discarded at any point —
that does not contain the period, so the chunks do not cover every input
character even ignoring overlap words and discarded trailing fragments.
Input B (33 nine-character words, a period, then a 700-character sentence)
closes a 329-character first chunk whose entire text is re-injected as the
overlap seed of the second chunk: the overlap region is 329 characters,
exceeding the configured 200-character overlap bound. -/
theorem createChunks_counterexample :
    ('.' ∈ c4textA ∧ createChunksRaw c4textA = [c4chunkA]
      ∧ createChunks c4textA = [c4chunkA] ∧ '.' ∉ c4chunkA)
  ∧ (createChunks c4textB
        = [c4sentB1, joinSpace (overlapSeed c4sentB1) ++ [' '] ++ c4sentB2]
      ∧ chunkOverlap < (joinSpace (overlapSeed c4sentB1)).length) :=
  ⟨⟨by decide, by decide, by decide, by decide⟩, ⟨by decide, by decide⟩⟩

/-- C5: evaluation of `processDocument` at the failing input — a
single-chunk document ingested with no caller-supplied `documentId`, where
the two independent `uuidv4()` draws return `uuid-1` (line 180, inside
`generateVectorData`) and `uuid-2` (line 52, for the result object).  The
single upserted entry has id `uuid-1_chunk_0` and metadata documentId
`uuid-1`, yet the returned result carries documentId `uuid-2`, so the
returned id matches no upserted vector. -/
theorem processDocument_id_mismatch :
    c5outcome.upserted.map VectorEntry.id = ["uuid-1_chunk_0"]
  ∧ c5outcome.upserted.map (fun v => v.metadata.documentId) = ["uuid-1"]
  ∧ c5outcome.result.toOption.map IngestResult.documentId = some "uuid-2"
  ∧ ("uuid-1" : String) ≠ "uuid-2" :=
  ⟨rfl, rfl, rfl, by decide⟩

/-- C7: `classifyIntent` is total over its injected provider outcome — it
never raises.  A rejected provider call yields `{general, 0}`; a fulfilled
call whose content is missing (empty choices) or fails to parse yields
`{general, 0.5}`; otherwise the parsed intent is returned as-is. -/
theorem classifyIntent_spec (parse : String → Option Intent)
    (res : Except String (List String)) :
    (∀ e, res = Except.error e →
       classifyIntent parse res = { categoria := "general", confianza := some 0 })
  ∧ (∀ chs, res = Except.ok chs →
       chs.head?.bind (fun c => parse (jsTrimString c)) = none →
       classifyIntent parse res = { categoria := "general", confianza := some (1/2) })
  ∧ (∀ chs c i, res = Except.ok chs → chs.head? = some c →
       parse (jsTrimString c) = some i → classifyIntent parse res = i) := by
  refine ⟨?_, ?_, ?_⟩
  · intro e he
    subst he
    rfl
  · intro chs he hb
    subst he
    cases chs with
    | nil => rfl
    | cons c rest =>
      have hb2 : parse (jsTrimString c) = none := by simpa using hb
      simp [classifyIntent, hb2]
  · intro chs c i he hh hp
    subst he
    cases chs with
    | nil => simp at hh
    | cons c0 rest =>
      have hc0 : c0 = c := by simpa using hh
      subst hc0
      simp [classifyIntent, hp]

/-- C7 witness: an unparseable payload degrades to the
`{general, 0.5}` default. -/
theorem classifyIntent_spec_witness :
    classifyIntent c7parse (Except.ok ["x"])
      = { categoria := "general", confianza := some (1/2) } :=
  (classifyIntent_spec c7parse (Except.ok ["x"])).2.1 ["x"] rfl rfl

/-- C9 (amended): the temp-file `fs.unlink` is reached exactly when the
whole ingest pipeline succeeds; when extraction (or any later stage) fails,
the error is surfaced to the caller and the unlink is never attempted, so
the temporary upload is not released on failure. -/
theorem processDocument_unlink_spec (extractResult : Except String String)
    (embedBatch : List String → Except String (List (List ℚ)))
    (upsert : List VectorEntry → Except String Unit)
    (file : FileInfo) (meta : UploadMeta) (u1 u2 nowIso : String) :
    ((processDocument extractResult embedBatch upsert file meta u1 u2 nowIso).unlinkAttempted = true
       ↔ ∃ r, (processDocument extractResult embedBatch upsert file meta u1 u2 nowIso).result
           = Except.ok r)
  ∧ (∀ e, extractResult = Except.error e →
       processDocument extractResult embedBatch upsert file meta u1 u2 nowIso
         = { result := Except.error e, unlinkAttempted := false, upserted := [] }) := by
  constructor
  · cases extractResult with
    | error e => simp [processDocument]
    | ok text =>
      by_cases hempty : (trimChars text.data).length = 0
      · simp [processDocument, hempty]
      · cases hemb : embedBatch ((createChunks text.data).map String.mk) with
        | error e => simp [processDocument, hempty, hemb]
        | ok embeddings =>
          cases hup : upsert (generateVectorData ((createChunks text.data).map String.mk)
              file meta u1 embeddings nowIso) with
          | error e => simp [processDocument, hempty, hemb, hup]
          | ok u => simp [processDocument, hempty, hemb, hup]
  · intro e he
    subst he
    rfl

/-- C9 counterexample: when text extraction fails, `processDocument`
rethrows the error and the temp-file unlink is never reached — the
temporary upload is not released, contrary to the claim. -/
theorem processDocument_no_cleanup_on_failure :
    c9outcome.result = Except.error "Error procesando archivo de texto"
  ∧ c9outcome.unlinkAttempted = false :=
  ⟨rfl, rfl⟩

/-- C9 witness: the amended theorem applied to a concrete failing
extraction. -/
theorem processDocument_unlink_spec_witness :
    processDocument (Except.error "boom") (fun _ => Except.ok [])
        (fun _ => Except.ok ()) c9file {} "u1" "u2" "t0"
      = { result := Except.error "boom", unlinkAttempted := false, upserted := [] } :=
  (processDocument_unlink_spec (Except.error "boom") (fun _ => Except.ok [])
    (fun _ => Except.ok ()) c9file {} "u1" "u2" "t0").2 "boom" rfl

end Rag
